import Mathlib

/-!
Shallow embedding of the 99tech order processor
(`internal/processor/processor.go`, `internal/models`, `cmd/root.go`).

The network, the JSON decoder and the file system are external to the
program, so they are modelled as oracles passed in as parameters:
* an attempt oracle `env : Nat → AttemptOutcome` giving, for the k-th
  HTTP GET issued during the run, what `client.Get`, `io.ReadAll` on the
  response body and the subsequent `fmt.Fprintf` to the output file did;
* a decode oracle `decode : String → Option Order` standing for
  `json.Unmarshal` on one input line;
* booleans for the three fallible resource operations (`os.Open`,
  `os.Create`, `scanner.Err`).
All control flow, counters, backoff arithmetic, queueing and log points
are translated directly from the Go source.
-/

namespace OrderProcessor

/-- `models.Order`: one trading order decoded from an input line. -/
structure Order where
  OrderID : String
  Symbol : String
  Quantity : Int
  Price : Float
  Side : String
  Timestamp : String

/-- The configuration fields of `processor.Processor` that the core logic
reads (`client`, `Logger` and the file handles are modelled by the
oracles; `Timeout`/`Insecure` only configure the HTTP client). -/
structure Processor where
  InputFile : String
  OutputFile : String
  Symbol : String
  Side : String
  Retries : Nat
  BaseURL : String
  Insecure : Bool

/-- What the environment did for one HTTP GET attempt:
either `client.Get` returned a non-nil error (transport failure), or a
response arrived with the given status code; `body = none` models
`io.ReadAll(resp.Body)` failing, and `writeOk` tells whether the
`fmt.Fprintf` to the output file (only reached on a 2XX response with a
readable body) succeeded. -/
inductive AttemptOutcome where
  | transportError
  | response (status : Nat) (body : Option String) (writeOk : Bool)

/-- `strings.TrimRight(s, "/")`: drop every trailing `'/'`. -/
def trimRightSlashes (s : String) : String :=
  ⟨(s.data.reverse.dropWhile (fun c => c = '/')).reverse⟩

/-- `fmt.Sprintf("%s/%s", strings.TrimRight(p.BaseURL, "/"), order.OrderID)`. -/
def buildURL (p : Processor) (order : Order) : String :=
  trimRightSlashes p.BaseURL ++ "/" ++ order.OrderID

/-- Observable trace of one `processOrder` call: whether it returned nil,
how many GET attempts it issued, the backoff sleeps (in seconds, in
order), the bytes appended to the output file, the URLs requested, and
the next index into the attempt oracle. -/
structure DeliveryTrace where
  ok : Bool
  attempts : Nat
  sleeps : List Nat
  written : String
  requests : List String
  next : Nat

/-- `(*Processor).processOrder(order, retryCount)` under attempt oracle
`env`, where `tick` indexes the next GET of the run.  Mirrors the Go
source: a transport error retries inline (sleeping `retryCount+1`
seconds) while `retryCount < p.Retries`; a response with status outside
200–299, a body-read failure, or an output-write failure each return an
error immediately; a 2XX response with readable body appends
`body ++ "\n"` to the output file. -/
def processOrder (p : Processor) (env : Nat → AttemptOutcome) (order : Order)
    (retryCount : Nat) (tick : Nat) : DeliveryTrace :=
  let url := buildURL p order
  match env tick with
  | .transportError =>
      if h : retryCount < p.Retries then
        let r := processOrder p env order (retryCount + 1) (tick + 1)
        { ok := r.ok, attempts := r.attempts + 1,
          sleeps := (retryCount + 1) :: r.sleeps,
          written := r.written, requests := url :: r.requests, next := r.next }
      else
        { ok := false, attempts := 1, sleeps := [], written := "",
          requests := [url], next := tick + 1 }
  | .response status body writeOk =>
      if status < 200 ∨ 300 ≤ status then
        { ok := false, attempts := 1, sleeps := [], written := "",
          requests := [url], next := tick + 1 }
      else
        match body with
        | none =>
            { ok := false, attempts := 1, sleeps := [], written := "",
              requests := [url], next := tick + 1 }
        | some b =>
            if writeOk then
              { ok := true, attempts := 1, sleeps := [], written := b ++ "\n",
                requests := [url], next := tick + 1 }
            else
              { ok := false, attempts := 1, sleeps := [], written := "",
                requests := [url], next := tick + 1 }
termination_by p.Retries - retryCount
decreasing_by omega

/-- The logger calls issued by `Process` and `processRetryQueue`
(the `Debugf`/`Warnf`/`Infof` calls inside `processOrder` are carried by
`DeliveryTrace.sleeps`/`attempts` instead). -/
inductive LogEvent where
  | warnInvalidJSON (lineNum : Nat)
  | infoProcessing (orderID : String)
  | warnRetryQueueAdd (orderID : String)
  | infoRetryQueueStart (count : Nat)
  | infoRetryAttempt (attempt total : Nat) (orderID : String)
  | warnRetryFailed (orderID : String)
  | errorExceededRetries (orderID : String)
deriving DecidableEq

/-- `strings.TrimSpace(line) == ""`: the line holds only whitespace. -/
def isBlankLine (s : String) : Bool :=
  s.data.all (fun c => c = ' ' ∨ c = '\t' ∨ c = '\n' ∨ c = '\r')

/-- Mutable state of `Process`'s scan loop: the next attempt-oracle
index, total GET attempts so far, the bytes written to the output file,
sleeps, requested URLs, emitted log events, and the retry queue. -/
structure PassState where
  tick : Nat
  attempts : Nat
  output : String
  sleeps : List Nat
  requests : List String
  log : List LogEvent
  retryQueue : List Order

/-- One iteration of `Process`'s scan loop on the line numbered
`lineNum`: skip blank lines silently, warn and skip lines that fail to
decode, and for a decoded order matching both filters run
`processOrder(order, 0)`, enqueueing the order on failure. -/
def processLine (p : Processor) (env : Nat → AttemptOutcome)
    (decode : String → Option Order) (st : PassState) (lineNum : Nat)
    (line : String) : PassState :=
  if isBlankLine line then st
  else
    match decode line with
    | none => { st with log := st.log ++ [.warnInvalidJSON lineNum] }
    | some order =>
        if order.Symbol = p.Symbol ∧ order.Side = p.Side then
          let r := processOrder p env order 0 st.tick
          let st' : PassState :=
            { tick := r.next, attempts := st.attempts + r.attempts,
              output := st.output ++ r.written,
              sleeps := st.sleeps ++ r.sleeps,
              requests := st.requests ++ r.requests,
              log := st.log ++ [.infoProcessing order.OrderID],
              retryQueue := st.retryQueue }
          if r.ok then st'
          else
            { st' with
              log := st'.log ++ [.warnRetryQueueAdd order.OrderID],
              retryQueue := st'.retryQueue ++ [order] }
        else st

/-- The whole scan loop: `lineNum` is incremented before each line is
handled, exactly as in the Go source. -/
def runLines (p : Processor) (env : Nat → AttemptOutcome)
    (decode : String → Option Order) : PassState → Nat → List String → PassState
  | st, _, [] => st
  | st, n, line :: rest =>
      runLines p env decode (processLine p env decode st (n + 1) line) (n + 1) rest

/-- Observable trace of the retry-queue loop for one order: `calls`
records the `retryAttempts` value passed to each `processOrder`
invocation, and `finalRetryAttempts` is the loop counter's value when
the loop exits. -/
structure QueueTrace where
  tick : Nat
  attempts : Nat
  output : String
  sleeps : List Nat
  requests : List String
  log : List LogEvent
  calls : List Nat
  finalRetryAttempts : Nat

/-- The inner `for retryAttempts < p.Retries` loop of
`processRetryQueue` for one order: each iteration logs the attempt,
invokes `processOrder(order, retryAttempts)`, and on failure logs a
warning and increments `retryAttempts`; success breaks out. -/
def retryLoop (p : Processor) (env : Nat → AttemptOutcome) (order : Order)
    (retryAttempts : Nat) (tick : Nat) : QueueTrace :=
  if h : retryAttempts < p.Retries then
    let r := processOrder p env order retryAttempts tick
    if r.ok then
      { tick := r.next, attempts := r.attempts, output := r.written,
        sleeps := r.sleeps, requests := r.requests,
        log := [.infoRetryAttempt (retryAttempts + 1) p.Retries order.OrderID],
        calls := [retryAttempts], finalRetryAttempts := retryAttempts }
    else
      let rest := retryLoop p env order (retryAttempts + 1) r.next
      { tick := rest.tick, attempts := r.attempts + rest.attempts,
        output := r.written ++ rest.output, sleeps := r.sleeps ++ rest.sleeps,
        requests := r.requests ++ rest.requests,
        log := .infoRetryAttempt (retryAttempts + 1) p.Retries order.OrderID ::
          .warnRetryFailed order.OrderID :: rest.log,
        calls := retryAttempts :: rest.calls,
        finalRetryAttempts := rest.finalRetryAttempts }
  else
    { tick := tick, attempts := 0, output := "", sleeps := [], requests := [],
      log := [], calls := [], finalRetryAttempts := retryAttempts }
termination_by p.Retries - retryAttempts
decreasing_by omega

/-- The per-order body of `processRetryQueue`'s outer loop: run the
retry loop from `retryAttempts = 0` and, when the loop exits with
`retryAttempts >= p.Retries`, log the exceeded-maximum-retries error. -/
def processQueueOrder (p : Processor) (env : Nat → AttemptOutcome)
    (order : Order) (tick : Nat) : QueueTrace :=
  let t := retryLoop p env order 0 tick
  if p.Retries ≤ t.finalRetryAttempts then
    { t with log := t.log ++ [.errorExceededRetries order.OrderID] }
  else t

/-- Fold of `processQueueOrder` over the queued orders in order. -/
def runQueue (p : Processor) (env : Nat → AttemptOutcome) :
    List Order → Nat → QueueTrace
  | [], tick =>
      { tick := tick, attempts := 0, output := "", sleeps := [], requests := [],
        log := [], calls := [], finalRetryAttempts := 0 }
  | order :: rest, tick =>
      let t := processQueueOrder p env order tick
      let ts := runQueue p env rest t.tick
      { tick := ts.tick, attempts := t.attempts + ts.attempts,
        output := t.output ++ ts.output, sleeps := t.sleeps ++ ts.sleeps,
        requests := t.requests ++ ts.requests, log := t.log ++ ts.log,
        calls := t.calls ++ ts.calls, finalRetryAttempts := ts.finalRetryAttempts }

/-- `(*Processor).processRetryQueue(queue)`: nothing at all happens on an
empty queue; otherwise the queue-start message is logged and each order
is handled in turn. -/
def processRetryQueue (p : Processor) (env : Nat → AttemptOutcome)
    (queue : List Order) (tick : Nat) : QueueTrace :=
  match queue with
  | [] =>
      { tick := tick, attempts := 0, output := "", sleeps := [], requests := [],
        log := [], calls := [], finalRetryAttempts := 0 }
  | _ :: _ =>
      let t := runQueue p env queue tick
      { t with log := .infoRetryQueueStart queue.length :: t.log }

/-- The error values `Process` can return. -/
inductive RunError where
  | openInputFailed
  | createOutputFailed
  | readFailed
deriving DecidableEq

/-- Everything observable about one `Process()` run. -/
structure RunResult where
  err : Option RunError
  firstAttempts : Nat
  queueAttempts : Nat
  output : String
  sleeps : List Nat
  requests : List String
  log : List LogEvent
  retryQueue : List Order

/-- `(*Processor).Process()`: `openOk`/`createOk` model whether
`os.Open(p.InputFile)`/`os.Create(p.OutputFile)` succeed, `lines` are
the lines the scanner delivered, and `scanErr` models a non-nil
`scanner.Err()` after the loop.  A failed open or create returns the
error before anything runs; a scan error returns after the scanned lines
were processed but before the retry queue is replayed; otherwise the
retry queue is replayed and nil is returned. -/
def Process (p : Processor) (env : Nat → AttemptOutcome)
    (decode : String → Option Order) (openOk createOk : Bool)
    (lines : List String) (scanErr : Bool) : RunResult :=
  if ¬ openOk then
    { err := some .openInputFailed, firstAttempts := 0, queueAttempts := 0,
      output := "", sleeps := [], requests := [], log := [], retryQueue := [] }
  else if ¬ createOk then
    { err := some .createOutputFailed, firstAttempts := 0, queueAttempts := 0,
      output := "", sleeps := [], requests := [], log := [], retryQueue := [] }
  else
    let st := runLines p env decode
      { tick := 0, attempts := 0, output := "", sleeps := [], requests := [],
        log := [], retryQueue := [] } 0 lines
    if scanErr then
      { err := some .readFailed, firstAttempts := st.attempts, queueAttempts := 0,
        output := st.output, sleeps := st.sleeps, requests := st.requests,
        log := st.log, retryQueue := st.retryQueue }
    else
      let q := processRetryQueue p env st.retryQueue st.tick
      { err := none, firstAttempts := st.attempts, queueAttempts := q.attempts,
        output := st.output ++ q.output, sleeps := st.sleeps ++ q.sleeps,
        requests := st.requests ++ q.requests, log := st.log ++ q.log,
        retryQueue := st.retryQueue }

/-! Concrete fixtures used to exercise the embedding on closed inputs. -/

/-- A matching order, as in the README's input-format example. -/
def sampleOrder : Order :=
  { OrderID := "1", Symbol := "TSLA", Quantity := 100, Price := 150.5,
    Side := "sell", Timestamp := "2024-03-20T10:00:00Z" }

/-- An order whose symbol does not match the default filter. -/
def mismatchedOrder : Order := { sampleOrder with OrderID := "2", Symbol := "AAPL" }

/-- The default CLI configuration (`cmd/root.go`) with `--retry 2`. -/
def sampleProc : Processor :=
  { InputFile := "transaction-log.txt", OutputFile := "output.txt",
    Symbol := "TSLA", Side := "sell", Retries := 2,
    BaseURL := "https://example.com/api", Insecure := false }

/-- Same configuration with `--retry 3` (the CLI default). -/
def procRetries3 : Processor := { sampleProc with Retries := 3 }

/-- An endpoint that always answers HTTP 500. -/
def envAlways500 : Nat → AttemptOutcome := fun _ => .response 500 none false

/-- A network where every GET fails at the transport level. -/
def envTransport : Nat → AttemptOutcome := fun _ => .transportError

/-- An endpoint that always answers HTTP 200 with body "OK". -/
def env200OK : Nat → AttemptOutcome := fun _ => .response 200 (some "OK") true

/-- An endpoint answering HTTP 204, but the write to the output file fails. -/
def envWriteFail : Nat → AttemptOutcome := fun _ => .response 204 (some "x") false

/-- A decoder that accepts exactly the line `line1` as `sampleOrder`. -/
def decodeSample : String → Option Order :=
  fun line => if line = "line1" then some sampleOrder else none

/-- The scan-loop state at the start of a run. -/
def st0 : PassState :=
  { tick := 0, attempts := 0, output := "", sleeps := [], requests := [],
    log := [], retryQueue := [] }

/-! Helper lemmas. -/

/-- Every `processOrder` call issues at least one GET. -/
theorem processOrder_attempts_pos (p : Processor) (env : Nat → AttemptOutcome)
    (order : Order) (retryCount tick : Nat) :
    1 ≤ (processOrder p env order retryCount tick).attempts := by
  rw [processOrder]
  split
  · split <;> simp
  · split
    · simp
    · split
      · simp
      · split <;> simp

/-- Under a network that always fails at the transport level,
`processOrder` retries inline until the budget is exhausted: starting at
`retryCount` it makes `p.Retries - retryCount + 1` attempts, sleeping
`retryCount+1, retryCount+2, …, p.Retries` seconds between them, and
returns failure without writing anything. -/
theorem processOrder_transport (p : Processor) (env : Nat → AttemptOutcome)
    (order : Order) (henv : ∀ t, env t = .transportError) :
    ∀ retryCount tick, processOrder p env order retryCount tick =
      { ok := false, attempts := p.Retries - retryCount + 1,
        sleeps := List.range' (retryCount + 1) (p.Retries - retryCount),
        written := "",
        requests := List.replicate (p.Retries - retryCount + 1) (buildURL p order),
        next := tick + (p.Retries - retryCount + 1) } := by
  intro retryCount tick
  generalize hfuel : p.Retries - retryCount = n
  induction n generalizing retryCount tick with
  | zero =>
      rw [processOrder, henv]
      have hge : ¬ retryCount < p.Retries := by omega
      simp [hge]
  | succ n ih =>
      rw [processOrder, henv]
      have hlt : retryCount < p.Retries := by omega
      have hfuel' : p.Retries - (retryCount + 1) = n := by omega
      simp only [hlt, dif_pos, ih (retryCount + 1) (tick + 1) hfuel', hfuel]
      simp only [DeliveryTrace.mk.injEq, List.range'_succ, List.replicate_succ,
        true_and, and_true]
      omega

/-- The attempt indices passed to `processOrder` by the retry-queue loop
started at `j` form the contiguous block `j, j+1, …, j+m-1` for some `m`
with `j + m ≤ p.Retries`. -/
theorem retryLoop_calls (p : Processor) (env : Nat → AttemptOutcome) (order : Order) :
    ∀ j tick, j ≤ p.Retries → ∃ m, j + m ≤ p.Retries ∧
      (retryLoop p env order j tick).calls = List.range' j m := by
  intro j tick hj
  generalize hfuel : p.Retries - j = n
  induction n generalizing j tick with
  | zero =>
      have hge : ¬ j < p.Retries := by omega
      rw [retryLoop]
      simp only [hge, dif_neg, not_false_iff]
      exact ⟨0, by omega, rfl⟩
  | succ n ih =>
      have hlt : j < p.Retries := by omega
      rw [retryLoop]
      simp only [hlt, dif_pos]
      by_cases hok : (processOrder p env order j tick).ok
      · simp only [hok, if_true]
        exact ⟨1, by omega, rfl⟩
      · simp only [hok, if_false, Bool.false_eq_true]
        obtain ⟨m, hm, hc⟩ :=
          ih (j + 1) (processOrder p env order j tick).next (by omega) (by omega)
        refine ⟨m + 1, by omega, ?_⟩
        rw [List.range'_succ]
        simp [hc]

/-- One scan-loop iteration either leaves the retry queue unchanged or
appends exactly the one order decoded from its line. -/
theorem processLine_retryQueue (p : Processor) (env : Nat → AttemptOutcome)
    (decode : String → Option Order) (st : PassState) (lineNum : Nat)
    (line : String) :
    (processLine p env decode st lineNum line).retryQueue = st.retryQueue ∨
    ∃ o, decode line = some o ∧
      (processLine p env decode st lineNum line).retryQueue = st.retryQueue ++ [o] := by
  by_cases hb : isBlankLine line
  · left; simp [processLine, hb]
  · cases hd : decode line with
    | none => left; simp [processLine, hb, hd]
    | some o =>
        by_cases hf : o.Symbol = p.Symbol ∧ o.Side = p.Side
        · by_cases hok : (processOrder p env o 0 st.tick).ok
          · left; simp [processLine, hb, hd, hf, hok]
          · right
            exact ⟨o, rfl, by simp [processLine, hb, hd, hf, hok]⟩
        · left; simp [processLine, hb, hd, hf]

/-- One scan-loop iteration only ever appends to the output file. -/
theorem processLine_output_append (p : Processor) (env : Nat → AttemptOutcome)
    (decode : String → Option Order) (st : PassState) (lineNum : Nat)
    (line : String) :
    ∃ s, (processLine p env decode st lineNum line).output = st.output ++ s := by
  by_cases hb : isBlankLine line
  · exact ⟨"", by simp [processLine, hb, String.append_empty]⟩
  · cases hd : decode line with
    | none => exact ⟨"", by simp [processLine, hb, hd, String.append_empty]⟩
    | some o =>
        by_cases hf : o.Symbol = p.Symbol ∧ o.Side = p.Side
        · by_cases hok : (processOrder p env o 0 st.tick).ok
          · exact ⟨(processOrder p env o 0 st.tick).written,
              by simp [processLine, hb, hd, hf, hok]⟩
          · exact ⟨(processOrder p env o 0 st.tick).written,
              by simp [processLine, hb, hd, hf, hok]⟩
        · exact ⟨"", by simp [processLine, hb, hd, hf, String.append_empty]⟩

/-- Dropping leading slashes commutes past a block of slashes. -/
theorem dropWhile_slash_replicate (l : List Char) (j : Nat) :
    List.dropWhile (fun c => c = '/') (List.replicate j '/' ++ l) =
    List.dropWhile (fun c => c = '/') l := by
  induction j with
  | zero => simp
  | succ j ih => simp [List.replicate_succ, List.dropWhile_cons, ih]

/-- Appending trailing slashes does not change the trimmed base URL. -/
theorem trimRightSlashes_append (b : String) (j : Nat) :
    trimRightSlashes (b ++ ⟨List.replicate j '/'⟩) = trimRightSlashes b := by
  simp [trimRightSlashes, String.data_append, List.reverse_append,
    List.reverse_replicate, dropWhile_slash_replicate]

/-! Claim theorems. -/

/-- C1, counterexample: with the default filters, retry budget 2 and an
endpoint that always answers HTTP 500, the very first delivery attempt
(attempt index 0, strictly below the budget) surfaces failure after a
single GET with no backoff sleep — the engine does not sleep and retry
as it does for a transport error, refuting the claimed equivalence. -/
theorem non2xx_retry_claim_cex :
    0 < sampleProc.Retries ∧
    (processOrder sampleProc envAlways500 sampleOrder 0 0).attempts = 1 ∧
    (processOrder sampleProc envAlways500 sampleOrder 0 0).sleeps = [] ∧
    (processOrder sampleProc envAlways500 sampleOrder 0 0).ok = false := by
  refine ⟨by decide, ?_, ?_, ?_⟩ <;> simp [processOrder, envAlways500, sampleProc]

/-- C1, amended: a received response with status outside 200–299 makes
`processOrder` return failure immediately — one GET, no sleep, no
output — regardless of how the attempt index compares to the retry
budget; only transport-level errors trigger the inline sleep-and-retry. -/
theorem non2xx_immediate_failure (p : Processor) (env : Nat → AttemptOutcome)
    (order : Order) (retryCount tick status : Nat) (body : Option String) (w : Bool)
    (henv : env tick = .response status body w)
    (hstat : status < 200 ∨ 300 ≤ status) :
    processOrder p env order retryCount tick =
      { ok := false, attempts := 1, sleeps := [], written := "",
        requests := [buildURL p order], next := tick + 1 } := by
  rw [processOrder, henv]
  simp only [hstat, if_pos]

/-- C1, witness: the amended theorem applied to the always-500 endpoint
at attempt index 0 with budget 2. -/
theorem non2xx_immediate_failure_inst :
    processOrder sampleProc envAlways500 sampleOrder 0 0 =
      { ok := false, attempts := 1, sleeps := [], written := "",
        requests := [buildURL sampleProc sampleOrder], next := 1 } :=
  non2xx_immediate_failure sampleProc envAlways500 sampleOrder 0 0 500 none false
    rfl (by decide)

/-- C2, counterexample: an always-500 endpoint is a retryable outcome in
the spec's classification, yet with retry budget 3 the first pass makes
exactly one delivery attempt, not `retryBudget + 1 = 4`. -/
theorem retry_budget_claim_cex :
    (processOrder procRetries3 envAlways500 sampleOrder 0 0).attempts = 1 ∧
    (processOrder procRetries3 envAlways500 sampleOrder 0 0).attempts ≠
      procRetries3.Retries + 1 := by
  constructor <;> simp [processOrder, envAlways500, procRetries3, sampleProc]

/-- C2, amended: for an order whose delivery keeps hitting
transport-level failures, the first-pass inline retry makes exactly
`retryBudget + 1` attempts before surfacing failure, sleeping
`1, 2, …, retryBudget` seconds before the attempts at indices
`1, …, retryBudget`, a strictly increasing backoff; a delivery that
keeps receiving non-2XX responses instead surfaces failure after a
single attempt (see the C1 theorems). -/
theorem transport_retry_budget (p : Processor) (env : Nat → AttemptOutcome)
    (order : Order) (tick : Nat) (henv : ∀ t, env t = .transportError) :
    (processOrder p env order 0 tick).ok = false ∧
    (processOrder p env order 0 tick).attempts = p.Retries + 1 ∧
    (processOrder p env order 0 tick).sleeps = List.range' 1 p.Retries ∧
    List.Pairwise (· < ·) (processOrder p env order 0 tick).sleeps := by
  have h := processOrder_transport p env order henv 0 tick
  rw [h]
  refine ⟨rfl, by simp, by simp, ?_⟩
  exact List.pairwise_lt_range' 1 p.Retries

/-- C2, witness: the amended theorem applied to a permanently failing
transport with budget 2: three attempts, sleeps `[1, 2]`. -/
theorem transport_retry_budget_inst :
    (processOrder sampleProc envTransport sampleOrder 0 0).ok = false ∧
    (processOrder sampleProc envTransport sampleOrder 0 0).attempts =
      sampleProc.Retries + 1 ∧
    (processOrder sampleProc envTransport sampleOrder 0 0).sleeps =
      List.range' 1 sampleProc.Retries ∧
    List.Pairwise (· < ·) (processOrder sampleProc envTransport sampleOrder 0 0).sleeps :=
  transport_retry_budget sampleProc envTransport sampleOrder 0 (fun _ => rfl)

/-- C3, counterexample: with retry budget 2 and an always-500 endpoint,
the queue replay of one order invokes delivery at attempt indices
`[0, 1]` — the index passed is the queue's own incrementing loop
counter, not a fixed value. -/
theorem queue_fixed_index_cex :
    (retryLoop sampleProc envAlways500 sampleOrder 0 0).calls = [0, 1] ∧
    ¬ List.Chain' (· = ·) (retryLoop sampleProc envAlways500 sampleOrder 0 0).calls := by
  have h : (retryLoop sampleProc envAlways500 sampleOrder 0 0).calls = [0, 1] := by
    simp [retryLoop, processOrder, envAlways500, sampleProc]
  refine ⟨h, by rw [h]; intro hchain; simp [List.chain'_cons] at hchain⟩

/-- C3, amended: every order that failed all first-pass attempts is
appended to the retry queue exactly once (each scanned line appends at
most the one order it decodes to), and during queue replay it receives
up to `retryBudget` delivery invocations whose attempt indices are
`0, 1, …, m-1` for some `m ≤ retryBudget`: the queue's loop counter both
controls termination and is passed as the delivery attempt index,
incrementing across iterations rather than staying fixed. -/
theorem queue_replay_incrementing_index (p : Processor) (env : Nat → AttemptOutcome)
    (order : Order) (tick : Nat) :
    (∃ m, m ≤ p.Retries ∧
      (retryLoop p env order 0 tick).calls = List.range m) ∧
    (∀ decode st lineNum line,
      (processLine p env decode st lineNum line).retryQueue = st.retryQueue ∨
      ∃ o, decode line = some o ∧
        (processLine p env decode st lineNum line).retryQueue = st.retryQueue ++ [o]) := by
  constructor
  · obtain ⟨m, hm, hc⟩ := retryLoop_calls p env order 0 tick (Nat.zero_le _)
    exact ⟨m, by omega, by rw [hc, List.range_eq_range']⟩
  · intro decode st lineNum line
    exact processLine_retryQueue p env decode st lineNum line

/-- C4, counterexample: one matching input line, an endpoint that always
answers HTTP 500, retry budget 2 — the first pass makes exactly one
delivery attempt, not the claimed three. -/
theorem always500_first_pass_cex :
    (Process sampleProc envAlways500 decodeSample true true ["line1"] false).firstAttempts
      = 1 ∧
    (Process sampleProc envAlways500 decodeSample true true ["line1"] false).firstAttempts
      ≠ 3 := by
  have h : (Process sampleProc envAlways500 decodeSample true true ["line1"] false).firstAttempts = 1 := by
    simp [Process, runLines, processLine, processOrder, processRetryQueue, runQueue,
      processQueueOrder, retryLoop, envAlways500, sampleProc, decodeSample,
      sampleOrder, isBlankLine]
  exact ⟨h, by rw [h]; decide⟩

/-- C4, amended: one matching input line, an endpoint that always
answers HTTP 500, retry budget 2 — the first pass makes exactly one
delivery attempt (a non-2XX response fails immediately with no inline
retry), the queue replay makes exactly two more, the order ends in the
Exhausted state (the exceeded-maximum-retries error is logged), nothing
is written to the output file, and the run returns nil rather than a
fatal error. -/
theorem always500_run_trace :
    (Process sampleProc envAlways500 decodeSample true true ["line1"] false).err = none ∧
    (Process sampleProc envAlways500 decodeSample true true ["line1"] false).firstAttempts
      = 1 ∧
    (Process sampleProc envAlways500 decodeSample true true ["line1"] false).queueAttempts
      = 2 ∧
    LogEvent.errorExceededRetries "1" ∈
      (Process sampleProc envAlways500 decodeSample true true ["line1"] false).log ∧
    (Process sampleProc envAlways500 decodeSample true true ["line1"] false).output
      = "" := by
  refine ⟨rfl, ?_, ?_, ?_, ?_⟩ <;>
    simp [Process, runLines, processLine, processOrder, processRetryQueue, runQueue,
      processQueueOrder, retryLoop, envAlways500, sampleProc, decodeSample,
      sampleOrder, isBlankLine]

/-- C5: for a decoded, non-blank input line, a delivery attempt occurs
if and only if the order's symbol and side both equal the configured
filters; on a mismatch the scan-loop state is completely unchanged — no
delivery attempt, no output write, no enqueue, no log line. -/
theorem filter_gates_delivery (p : Processor) (env : Nat → AttemptOutcome)
    (decode : String → Option Order) (st : PassState) (lineNum : Nat)
    (line : String) (o : Order)
    (hd : decode line = some o) (hb : isBlankLine line = false) :
    (st.attempts < (processLine p env decode st lineNum line).attempts ↔
      (o.Symbol = p.Symbol ∧ o.Side = p.Side)) ∧
    (¬ (o.Symbol = p.Symbol ∧ o.Side = p.Side) →
      processLine p env decode st lineNum line = st) := by
  constructor
  · by_cases hf : o.Symbol = p.Symbol ∧ o.Side = p.Side
    · simp only [hf, iff_true]
      have hpos := processOrder_attempts_pos p env o 0 st.tick
      by_cases hok : (processOrder p env o 0 st.tick).ok
      · simp [processLine, hb, hd, hf, hok]; omega
      · simp [processLine, hb, hd, hf, hok]; omega
    · simp [processLine, hb, hd, hf]
  · intro hf
    simp [processLine, hb, hd, hf]

/-- C5, witness: a decoded AAPL/sell order under a TSLA/sell filter
leaves the scan state untouched. -/
theorem filter_gates_delivery_inst :
    (st0.attempts <
      (processLine sampleProc envAlways500 (fun _ => some mismatchedOrder) st0 1
        "line1").attempts ↔
      (mismatchedOrder.Symbol = sampleProc.Symbol ∧
        mismatchedOrder.Side = sampleProc.Side)) ∧
    (¬ (mismatchedOrder.Symbol = sampleProc.Symbol ∧
        mismatchedOrder.Side = sampleProc.Side) →
      processLine sampleProc envAlways500 (fun _ => some mismatchedOrder) st0 1
        "line1" = st0) :=
  filter_gates_delivery sampleProc envAlways500 (fun _ => some mismatchedOrder)
    st0 1 "line1" mismatchedOrder rfl (by decide)

/-- C6: a blank or whitespace-only line leaves the scan state unchanged
(no warning); a non-blank line that fails to decode only appends the
invalid-JSON warning for its line number and produces no order; in both
cases the scan loop then continues with the next line. -/
theorem line_error_recovery (p : Processor) (env : Nat → AttemptOutcome)
    (decode : String → Option Order) (st : PassState) (lineNum : Nat)
    (line : String) :
    (isBlankLine line = true → processLine p env decode st lineNum line = st) ∧
    (isBlankLine line = false → decode line = none →
      processLine p env decode st lineNum line =
        { st with log := st.log ++ [.warnInvalidJSON lineNum] }) ∧
    (∀ rest n, runLines p env decode st n (line :: rest) =
      runLines p env decode (processLine p env decode st (n + 1) line) (n + 1) rest) :=
  ⟨fun hb => by simp [processLine, hb],
   fun hb hd => by simp [processLine, hb, hd],
   fun _ _ => rfl⟩

/-- C6, witness: a whitespace-only line is dropped silently, and a
malformed line adds exactly the warning for its line number. -/
theorem line_error_recovery_inst :
    processLine sampleProc envAlways500 decodeSample st0 1 "   " = st0 ∧
    processLine sampleProc envAlways500 decodeSample st0 2 "oops" =
      { st0 with log := st0.log ++ [.warnInvalidJSON 2] } :=
  ⟨(line_error_recovery sampleProc envAlways500 decodeSample st0 1 "   ").1
      (by decide),
   (line_error_recovery sampleProc envAlways500 decodeSample st0 2 "oops").2.1
      (by decide) (by simp [decodeSample])⟩

/-- C7: a delivery receiving a response with status in 200–299 whose
body is read and written successfully returns success after exactly one
attempt and appends the body byte-for-byte plus a single newline to the
output file; moreover each scan-loop iteration only ever appends at the
end of the output, so writes occur in arrival order. -/
theorem success_body_roundtrip (p : Processor) (env : Nat → AttemptOutcome)
    (order : Order) (retryCount tick status : Nat) (b : String)
    (henv : env tick = .response status (some b) true)
    (h1 : 200 ≤ status) (h2 : status < 300) :
    processOrder p env order retryCount tick =
      { ok := true, attempts := 1, sleeps := [], written := b ++ "\n",
        requests := [buildURL p order], next := tick + 1 } ∧
    (∀ decode st lineNum line, ∃ s,
      (processLine p env decode st lineNum line).output = st.output ++ s) := by
  constructor
  · rw [processOrder, henv]
    have hst : ¬ (status < 200 ∨ 300 ≤ status) := by omega
    simp [hst]
  · intro decode st lineNum line
    exact processLine_output_append p env decode st lineNum line

/-- C7, witness: a 200 response with body "OK" writes exactly
"OK" followed by a newline. -/
theorem success_body_roundtrip_inst :
    processOrder sampleProc env200OK sampleOrder 0 0 =
      { ok := true, attempts := 1, sleeps := [], written := "OK" ++ "\n",
        requests := [buildURL sampleProc sampleOrder], next := 1 } :=
  (success_body_roundtrip sampleProc env200OK sampleOrder 0 0 200 "OK" rfl
    (by decide) (by decide)).1

/-- C8: a failed input open aborts the run with its error before
anything happens; a failed output create likewise; a scan (read) error
makes the run return an error after the scanned lines but with no queue
replay; in every other circumstance — whatever the network, the decoder
and the input lines did — `Process` returns nil. -/
theorem resource_failures_fatal (p : Processor) (env : Nat → AttemptOutcome)
    (decode : String → Option Order) (lines : List String)
    (scanErr createOk : Bool) :
    Process p env decode false createOk lines scanErr =
      { err := some .openInputFailed, firstAttempts := 0, queueAttempts := 0,
        output := "", sleeps := [], requests := [], log := [], retryQueue := [] } ∧
    Process p env decode true false lines scanErr =
      { err := some .createOutputFailed, firstAttempts := 0, queueAttempts := 0,
        output := "", sleeps := [], requests := [], log := [], retryQueue := [] } ∧
    (Process p env decode true true lines true).err = some .readFailed ∧
    (Process p env decode true true lines true).queueAttempts = 0 ∧
    (Process p env decode true true lines false).err = none :=
  ⟨rfl, rfl, rfl, rfl, rfl⟩

/-- C9: the request target is the base URL with all trailing slashes
trimmed, then a slash and the order id — so two base URLs that differ
only in the number of trailing slashes produce identical request URLs
for every order. -/
theorem baseURL_trailing_slash_invariant (p : Processor) (b : String)
    (j k : Nat) (order : Order) :
    buildURL { p with BaseURL := b ++ ⟨List.replicate j '/'⟩ } order =
    buildURL { p with BaseURL := b ++ ⟨List.replicate k '/'⟩ } order := by
  simp [buildURL, trimRightSlashes_append]

/-- C10: a delivery whose response is 2XX but whose body read or output
write fails returns failure immediately — one attempt, no sleep, no
inline retry — and the first pass then appends that order to the retry
queue, so the queue replay can issue another request for an order whose
HTTP call already succeeded. -/
theorem post_success_io_failure_enqueued (p : Processor) (env : Nat → AttemptOutcome)
    (tick status : Nat) (body : Option String) (w : Bool)
    (henv : env tick = .response status body w)
    (h1 : 200 ≤ status) (h2 : status < 300)
    (hfail : body = none ∨ w = false) :
    (∀ order retryCount, processOrder p env order retryCount tick =
      { ok := false, attempts := 1, sleeps := [], written := "",
        requests := [buildURL p order], next := tick + 1 }) ∧
    (∀ decode st lineNum line o, decode line = some o → isBlankLine line = false →
      o.Symbol = p.Symbol ∧ o.Side = p.Side → st.tick = tick →
      (processLine p env decode st lineNum line).retryQueue =
        st.retryQueue ++ [o]) := by
  have hst : ¬ (status < 200 ∨ 300 ≤ status) := by omega
  have hmain : ∀ order retryCount, processOrder p env order retryCount tick =
      { ok := false, attempts := 1, sleeps := [], written := "",
        requests := [buildURL p order], next := tick + 1 } := by
    intro order retryCount
    rw [processOrder, henv]
    rcases hfail with hb | hw
    · subst hb; simp [hst]
    · subst hw
      cases body with
      | none => simp [hst]
      | some bb => simp [hst]
  refine ⟨hmain, ?_⟩
  intro decode st lineNum line o hd hb hf hstick
  have hok : (processOrder p env o 0 st.tick).ok = false := by
    rw [hstick, hmain o 0]
  simp [processLine, hb, hd, hf, hok]

/-- C10, witness: a 204 response whose output write fails surfaces
failure after one attempt, and the order lands in the retry queue. -/
theorem post_success_io_failure_enqueued_inst :
    processOrder sampleProc envWriteFail sampleOrder 0 0 =
      { ok := false, attempts := 1, sleeps := [], written := "",
        requests := [buildURL sampleProc sampleOrder], next := 1 } ∧
    (processLine sampleProc envWriteFail decodeSample st0 1 "line1").retryQueue =
      st0.retryQueue ++ [sampleOrder] :=
  ⟨(post_success_io_failure_enqueued sampleProc envWriteFail 0 204 (some "x") false
      rfl (by decide) (by decide) (Or.inr rfl)).1 sampleOrder 0,
   (post_success_io_failure_enqueued sampleProc envWriteFail 0 204 (some "x") false
      rfl (by decide) (by decide) (Or.inr rfl)).2 decodeSample st0 1 "line1"
      sampleOrder (by simp [decodeSample]) (by decide) (by decide) rfl⟩

end OrderProcessor
